import Mathlib

/-!
Verification of the EduTrackers authorization core: the row-level-security
policies, the profile-provisioning trigger, and the grade arithmetic of the
client, shallowly embedded from the repository sources.

Sources embedded here:
- supabase/migrations/20251123125930 (tables, RLS policies, handle_new_user)
- supabase/migrations/20251123125943 (handle_new_user recreated, same insert)
- supabase/migrations/20251224134008 (announcements table and policies;
  is_teacher function and the rebuilt profile-visibility policy)
- src/components/Results.tsx (getPercentage, getGrade)
- src/components/Payments.tsx (handlePayment)

Timestamps (created_at, updated_at, submitted_at defaults) are immaterial to
every property below and are carried as plain strings or omitted.  NUMERIC
columns are embedded as rationals, UUID columns as natural numbers, DATE and
TEXT columns as strings.
-/

namespace EduTrackers

/-- UUID columns are opaque identifiers; equality is the only operation the
policies apply to them. -/
abbrev UUID := Nat

/-- Embeds the SQL enum: CREATE TYPE user_role AS ENUM ('student', 'teacher'). -/
inductive UserRole where
  | student
  | teacher
deriving DecidableEq

/-- Embeds CREATE TABLE profiles: id, email, full_name, role are NOT NULL;
roll_number, course, department, phone are nullable. -/
structure Profile where
  id : UUID
  email : String
  full_name : String
  role : UserRole
  roll_number : Option String := none
  course : Option String := none
  department : Option String := none
  phone : Option String := none
deriving DecidableEq

/-- Embeds CREATE TABLE assignments. -/
structure Assignment where
  id : UUID
  teacher_id : UUID
  title : String
  description : Option String := none
  file_url : Option String := none
  file_name : Option String := none
  due_date : Option String := none
  course : Option String := none
deriving DecidableEq

/-- Embeds CREATE TABLE assignment_submissions, including the table constraint
UNIQUE(assignment_id, student_id) which is enforced by the insert operation
below. -/
structure Submission where
  id : UUID
  assignment_id : UUID
  student_id : UUID
  file_url : Option String := none
  file_name : Option String := none
  status : String := "submitted"
  grade : Option ℚ := none
  feedback : Option String := none
deriving DecidableEq

/-- Embeds CREATE TABLE results; marks_obtained and total_marks are NUMERIC
NOT NULL with no CHECK constraint. -/
structure ResultRow where
  id : UUID
  student_id : UUID
  teacher_id : UUID
  exam_type : String
  subject : String
  marks_obtained : ℚ
  total_marks : ℚ
  exam_date : String
  remarks : Option String := none
deriving DecidableEq

/-- Embeds CREATE TABLE payments; status defaults to "pending". -/
structure Payment where
  id : UUID
  student_id : UUID
  amount : ℚ
  payment_type : String
  status : String := "pending"
  due_date : String
  paid_date : Option String := none
  semester : Option String := none
deriving DecidableEq

/-- Embeds CREATE TABLE public.announcements; teacher_id is NOT NULL and
carries no foreign-key clause. -/
structure Announcement where
  id : UUID
  teacher_id : UUID
  title : String
  message : String
deriving DecidableEq

/-- A snapshot of the relational store: one list of rows per table. -/
structure Database where
  profiles : List Profile := []
  assignments : List Assignment := []
  assignment_submissions : List Submission := []
  results : List ResultRow := []
  payments : List Payment := []
  announcements : List Announcement := []
deriving DecidableEq

/-- Embeds the SQL function is_teacher(user_id UUID) from migration
20251224134008: SELECT EXISTS (SELECT 1 FROM profiles WHERE id = user_id AND
role = 'teacher').  SECURITY DEFINER: it reads the raw profiles table,
bypassing row-level filtering, and takes no requester argument at all. -/
def is_teacher (db : Database) (user_id : UUID) : Bool :=
  db.profiles.any fun p => p.id == user_id && p.role == UserRole.teacher

/-- Embeds the inline subquery EXISTS (SELECT 1 FROM profiles WHERE
profiles.id = auth.uid() AND profiles.role = 'teacher') that the policies of
migration 20251123125930 repeat verbatim. -/
def requesterIsTeacher (db : Database) (uid : UUID) : Bool :=
  db.profiles.any fun p => p.id == uid && p.role == UserRole.teacher

/-! Profiles policies. -/

/-- Policy "Users can view their own profile": USING (auth.uid() = id). -/
def usersCanViewOwnProfile (uid : UUID) (row : Profile) : Bool :=
  uid == row.id

/-- Policy "Users can update their own profile": USING (auth.uid() = id); no
WITH CHECK clause, so the USING expression is also applied to updated rows. -/
def usersCanUpdateOwnProfile (uid : UUID) (row : Profile) : Bool :=
  uid == row.id

/-- Policy "Teachers can view all profiles", as rebuilt by migration
20251224134008: USING (is_teacher(auth.uid())). -/
def teachersCanViewAllProfiles (db : Database) (uid : UUID) : Bool :=
  is_teacher db uid

/-- Visibility of a profile row: permissive SELECT policies are disjoined. -/
def profileSelectAllowed (db : Database) (uid : UUID) (row : Profile) : Bool :=
  usersCanViewOwnProfile uid row || teachersCanViewAllProfiles db uid

/-! Assignments policies. -/

/-- Policy "Everyone can view assignments": USING (true). -/
def everyoneCanViewAssignments : Bool := true

/-- Policy "Teachers can create assignments": WITH CHECK (requester is a
teacher, via the inline EXISTS subquery). -/
def teachersCanCreateAssignments (db : Database) (uid : UUID) : Bool :=
  requesterIsTeacher db uid

/-- Policy "Teachers can update their own assignments": USING
(teacher_id = auth.uid()). -/
def teachersCanUpdateOwnAssignments (uid : UUID) (row : Assignment) : Bool :=
  row.teacher_id == uid

/-- Policy "Teachers can delete their own assignments": USING
(teacher_id = auth.uid()). -/
def teachersCanDeleteOwnAssignments (uid : UUID) (row : Assignment) : Bool :=
  row.teacher_id == uid

/-! Assignment submissions policies. -/

/-- Policy "Students can view their own submissions": USING
(student_id = auth.uid()). -/
def studentsCanViewOwnSubmissions (uid : UUID) (row : Submission) : Bool :=
  row.student_id == uid

/-- Policy "Teachers can view all submissions". -/
def teachersCanViewAllSubmissions (db : Database) (uid : UUID) : Bool :=
  requesterIsTeacher db uid

/-- Policy "Students can create their own submissions": WITH CHECK
(student_id = auth.uid()). -/
def studentsCanCreateOwnSubmissions (uid : UUID) (row : Submission) : Bool :=
  row.student_id == uid

/-- Policy "Teachers can update submissions (for grading)". -/
def teachersCanUpdateSubmissions (db : Database) (uid : UUID) : Bool :=
  requesterIsTeacher db uid

/-! Results policies. -/

/-- Policy "Students can view their own results": USING
(student_id = auth.uid()). -/
def studentsCanViewOwnResults (uid : UUID) (row : ResultRow) : Bool :=
  row.student_id == uid

/-- Policy "Teachers can view all results". -/
def teachersCanViewAllResults (db : Database) (uid : UUID) : Bool :=
  requesterIsTeacher db uid

/-- Policy "Teachers can create results". -/
def teachersCanCreateResults (db : Database) (uid : UUID) : Bool :=
  requesterIsTeacher db uid

/-- Policy "Teachers can update results": USING (teacher_id = auth.uid()). -/
def teachersCanUpdateResults (uid : UUID) (row : ResultRow) : Bool :=
  row.teacher_id == uid

/-- Visibility of a result row: the two permissive SELECT policies disjoined. -/
def resultSelectAllowed (db : Database) (uid : UUID) (row : ResultRow) : Bool :=
  studentsCanViewOwnResults uid row || teachersCanViewAllResults db uid

/-- The result rows a requester can read, as the store surfaces them: rows
failing every SELECT policy are silently filtered out. -/
def visibleResults (db : Database) (uid : UUID) : List ResultRow :=
  db.results.filter fun row => resultSelectAllowed db uid row

/-! Payments policies. -/

/-- Policy "Students can view their own payments": USING
(student_id = auth.uid()). -/
def studentsCanViewOwnPayments (uid : UUID) (row : Payment) : Bool :=
  row.student_id == uid

/-- Policy "Teachers can view all payments". -/
def teachersCanViewAllPayments (db : Database) (uid : UUID) : Bool :=
  requesterIsTeacher db uid

/-- Policy "Teachers can manage payments": FOR ALL USING (requester is a
teacher); no WITH CHECK clause, so the same requester-only predicate is
applied to updated and inserted rows. -/
def teachersCanManagePayments (db : Database) (uid : UUID) : Bool :=
  requesterIsTeacher db uid

/-- Visibility of a payment row: all permissive policies applicable to SELECT
disjoined (the FOR ALL policy also applies to reads). -/
def paymentSelectAllowed (db : Database) (uid : UUID) (row : Payment) : Bool :=
  studentsCanViewOwnPayments uid row || teachersCanViewAllPayments db uid ||
    teachersCanManagePayments db uid

/-- The payment rows a requester can read. -/
def visiblePayments (db : Database) (uid : UUID) : List Payment :=
  db.payments.filter fun row => paymentSelectAllowed db uid row

/-! Announcements policies. -/

/-- Policy "Everyone can view announcements": USING (true). -/
def everyoneCanViewAnnouncements : Bool := true

/-- Policy "Teachers can create announcements". -/
def teachersCanCreateAnnouncements (db : Database) (uid : UUID) : Bool :=
  requesterIsTeacher db uid

/-- Policy "Teachers can delete their announcements": USING
(teacher_id = auth.uid()). -/
def teachersCanDeleteTheirAnnouncements (uid : UUID) (row : Announcement) : Bool :=
  row.teacher_id == uid

/-! Write operations.  A write that no policy admits, or that violates a key
or referential constraint, is rejected whole: the store reports the failure
and leaves every row unchanged. -/

/-- Failure taxonomy of the data layer: a write no rule admits, a violated
uniqueness constraint, or a reference to a nonexistent row. -/
inductive DbError where
  | authorizationDenied
  | uniqueViolation
  | referentialFailure
deriving DecidableEq

/-- Does a profile row with the given id exist (foreign keys into profiles)? -/
def profileExists (db : Database) (uid : UUID) : Bool :=
  db.profiles.any fun p => p.id == uid

/-- Does an assignment row with the given id exist (foreign keys into
assignments)? -/
def assignmentExists (db : Database) (aid : UUID) : Bool :=
  db.assignments.any fun a => a.id == aid

/-- INSERT into assignments: gated by the "Teachers can create assignments"
WITH CHECK, then the primary key and the teacher_id foreign key. -/
def insertAssignment (db : Database) (uid : UUID) (row : Assignment) :
    Except DbError Database :=
  if teachersCanCreateAssignments db uid then
    if db.assignments.any fun a => a.id == row.id then
      Except.error DbError.uniqueViolation
    else if profileExists db row.teacher_id then
      Except.ok { db with assignments := row :: db.assignments }
    else Except.error DbError.referentialFailure
  else Except.error DbError.authorizationDenied

/-- INSERT into assignment_submissions: gated by the "Students can create
their own submissions" WITH CHECK, then the primary key together with the
UNIQUE(assignment_id, student_id) table constraint, then the two foreign
keys. -/
def insertSubmission (db : Database) (uid : UUID) (row : Submission) :
    Except DbError Database :=
  if studentsCanCreateOwnSubmissions uid row then
    if db.assignment_submissions.any fun t =>
        t.id == row.id ||
          (t.assignment_id == row.assignment_id && t.student_id == row.student_id) then
      Except.error DbError.uniqueViolation
    else if assignmentExists db row.assignment_id && profileExists db row.student_id then
      Except.ok { db with assignment_submissions := row :: db.assignment_submissions }
    else Except.error DbError.referentialFailure
  else Except.error DbError.authorizationDenied

/-- INSERT into results: gated by the "Teachers can create results" WITH
CHECK, then the primary key and the two foreign keys.  No constraint inspects
marks_obtained or total_marks. -/
def insertResult (db : Database) (uid : UUID) (row : ResultRow) :
    Except DbError Database :=
  if teachersCanCreateResults db uid then
    if db.results.any fun x => x.id == row.id then
      Except.error DbError.uniqueViolation
    else if profileExists db row.student_id && profileExists db row.teacher_id then
      Except.ok { db with results := row :: db.results }
    else Except.error DbError.referentialFailure
  else Except.error DbError.authorizationDenied

/-- INSERT into payments: gated by the WITH CHECK of the FOR ALL policy
"Teachers can manage payments", then the primary key and the student_id
foreign key. -/
def insertPayment (db : Database) (uid : UUID) (row : Payment) :
    Except DbError Database :=
  if teachersCanManagePayments db uid then
    if db.payments.any fun x => x.id == row.id then
      Except.error DbError.uniqueViolation
    else if profileExists db row.student_id then
      Except.ok { db with payments := row :: db.payments }
    else Except.error DbError.referentialFailure
  else Except.error DbError.authorizationDenied

/-- INSERT into announcements: gated by the "Teachers can create
announcements" WITH CHECK, then the primary key; teacher_id carries no
foreign key in this table. -/
def insertAnnouncement (db : Database) (uid : UUID) (row : Announcement) :
    Except DbError Database :=
  if teachersCanCreateAnnouncements db uid then
    if db.announcements.any fun x => x.id == row.id then
      Except.error DbError.uniqueViolation
    else
      Except.ok { db with announcements := row :: db.announcements }
  else Except.error DbError.authorizationDenied

/-- UPDATE on profiles under row-level security: a row is a target when it
matches the client filter cond and passes the USING clause of "Users can
update their own profile"; rows failing USING are invisible to the update and
stay untouched.  Because the policy has no WITH CHECK clause, the USING
expression is re-checked on each updated row; if any updated row fails it the
whole statement is rejected and no row changes. -/
def updateProfiles (db : Database) (uid : UUID) (cond : Profile → Bool)
    (upd : Profile → Profile) : Except DbError Database :=
  if (db.profiles.filter fun p => cond p && usersCanUpdateOwnProfile uid p).all
      (fun p => usersCanUpdateOwnProfile uid (upd p)) then
    Except.ok { db with profiles := db.profiles.map fun p =>
      if (cond p && usersCanUpdateOwnProfile uid p) then upd p else p }
  else Except.error DbError.authorizationDenied

/-- UPDATE on payments under row-level security: the only applicable policy is
the FOR ALL "Teachers can manage payments", whose USING clause ignores the row
and whose implicit WITH CHECK is the same requester-only predicate, so a row
passing USING always passes WITH CHECK; rows failing USING are invisible to
the update and stay untouched. -/
def updatePayments (db : Database) (uid : UUID) (cond : Payment → Bool)
    (upd : Payment → Payment) : Database :=
  { db with payments := db.payments.map fun p =>
      if (cond p && teachersCanManagePayments db uid) then upd p else p }

/-- Embeds handlePayment from src/components/Payments.tsx: an update request
setting status to "paid" and paid_date to the current date on the row whose id
matches, issued by whatever identity the client runs as. -/
def handlePayment (db : Database) (uid : UUID) (paymentId : UUID)
    (today : String) : Database :=
  updatePayments db uid (fun p => p.id == paymentId)
    (fun p => { p with status := "paid", paid_date := some today })

/-- DELETE on announcements under row-level security: a row is removed when it
matches the client filter cond and passes the USING clause of "Teachers can
delete their announcements"; every other row remains. -/
def deleteAnnouncements (db : Database) (uid : UUID)
    (cond : Announcement → Bool) : Database :=
  { db with announcements := db.announcements.filter fun a =>
      !(cond a && teachersCanDeleteTheirAnnouncements uid a) }

/-! The account-provisioning trigger. -/

/-- The signup metadata carried by a new authentication identity
(raw_user_meta_data).  The client signup form sends full_name and role always,
roll_number for students and department for teachers; course may be absent. -/
structure SignupMetadata where
  full_name : Option String := none
  role : Option UserRole := none
  roll_number : Option String := none
  course : Option String := none
  department : Option String := none

/-- A newly created authentication identity (a row of auth.users). -/
structure AuthUser where
  id : UUID
  email : String
  raw_user_meta_data : SignupMetadata

/-- Embeds handle_new_user as recreated by migration 20251123125943: INSERT
INTO public.profiles (id, email, full_name, role) VALUES (NEW.id, NEW.email,
COALESCE(metadata full_name, 'User'), COALESCE(metadata role, 'student')).
Only those four columns are named in the insert; every other profile column
takes its schema default, which is NULL. -/
def handle_new_user (u : AuthUser) : Profile :=
  { id := u.id
    email := u.email
    full_name := u.raw_user_meta_data.full_name.getD "User"
    role := u.raw_user_meta_data.role.getD UserRole.student
    roll_number := none
    course := none
    department := none
    phone := none }

/-- The trigger on_auth_user_created runs handle_new_user AFTER INSERT on
auth.users, adding the synthesized profile row to the profiles table. -/
def createIdentity (db : Database) (u : AuthUser) : Database :=
  { db with profiles := handle_new_user u :: db.profiles }

/-! Client arithmetic from src/components/Results.tsx. -/

/-- Embeds getPercentage: (obtained / total) * 100.  The toFixed(2) display
formatting is dropped; the arithmetic is over the rationals. -/
def getPercentage (obtained total : ℚ) : ℚ :=
  obtained / total * 100

/-- The grade label and display color returned by getGrade. -/
structure GradeInfo where
  grade : String
  color : String
deriving DecidableEq

/-- Embeds getGrade: a cascade of threshold comparisons at 90, 80, 70, 60 and
50, falling through to F. -/
def getGrade (percentage : ℚ) : GradeInfo :=
  if percentage ≥ 90 then { grade := "A+", color := "text-green-600" }
  else if percentage ≥ 80 then { grade := "A", color := "text-green-500" }
  else if percentage ≥ 70 then { grade := "B", color := "text-blue-500" }
  else if percentage ≥ 60 then { grade := "C", color := "text-yellow-500" }
  else if percentage ≥ 50 then { grade := "D", color := "text-orange-500" }
  else { grade := "F", color := "text-red-500" }

/-- The rank of a grade label in the order F < D < C < B < A < A+, used to
state monotonicity of the grade assignment. -/
def gradeRank (g : String) : Nat :=
  if g = "A+" then 5
  else if g = "A" then 4
  else if g = "B" then 3
  else if g = "C" then 2
  else if g = "D" then 1
  else 0

/-! Concrete fixtures used to instantiate the theorems below. -/

/-- A teacher profile. -/
def teacherOne : Profile :=
  { id := 1, email := "t1@school.edu", full_name := "Teacher One",
    role := UserRole.teacher, department := some "CS" }

/-- A student profile. -/
def studentTwo : Profile :=
  { id := 2, email := "s2@school.edu", full_name := "Student Two",
    role := UserRole.student, roll_number := some "2024002" }

/-- Another student profile. -/
def studentThree : Profile :=
  { id := 3, email := "s3@school.edu", full_name := "Student Three",
    role := UserRole.student, roll_number := some "2024003" }

/-- An assignment authored by the teacher. -/
def sampleAssignment : Assignment :=
  { id := 10, teacher_id := 1, title := "Homework 1" }

/-- A pending tuition payment of student 2. -/
def samplePayment : Payment :=
  { id := 20, student_id := 2, amount := 500, payment_type := "tuition",
    status := "pending", due_date := "2026-02-01" }

/-- An announcement row authored by the teacher. -/
def welcomeNote : Announcement :=
  { id := 30, teacher_id := 1, title := "Welcome", message := "Hello class" }

/-- A small store with one teacher, two students, one assignment, one pending
payment and one announcement row. -/
def sampleDb : Database :=
  { profiles := [teacherOne, studentTwo, studentThree]
    assignments := [sampleAssignment]
    payments := [samplePayment]
    announcements := [welcomeNote] }

/-! Helper lemmas shared by the theorems below. -/

/-- The inline teacher subquery of the 20251123125930 policies and the
is_teacher function of 20251224134008 embed the same SELECT EXISTS query. -/
theorem requesterIsTeacher_eq (db : Database) (u : UUID) :
    requesterIsTeacher db u = is_teacher db u := rfl

/-- The rank of the grade assigned by getGrade, written as a single threshold
cascade over the percentage. -/
theorem gradeRank_getGrade (p : ℚ) :
    gradeRank (getGrade p).grade =
      if p ≥ 90 then 5 else if p ≥ 80 then 4 else if p ≥ 70 then 3
        else if p ≥ 60 then 2 else if p ≥ 50 then 1 else 0 := by
  unfold getGrade gradeRank
  split_ifs <;> simp_all

/-- C10: getGrade is total and monotone: every percentage is assigned exactly
one grade among A+, A, B, C, D, F, and a larger percentage is never assigned a
grade below that of a smaller one in the order F < D < C < B < A < A+. -/
theorem getGrade_total_and_monotone :
    (∀ p : ℚ, (getGrade p).grade ∈ ["A+", "A", "B", "C", "D", "F"]) ∧
    (∀ p q : ℚ, p ≤ q →
      gradeRank (getGrade p).grade ≤ gradeRank (getGrade q).grade) := by
  constructor
  · intro p
    unfold getGrade
    split_ifs <;> simp
  · intro p q hpq
    rw [gradeRank_getGrade, gradeRank_getGrade]
    split_ifs <;> first | omega | linarith

/-- Witness for C10 at the pair 55 ≤ 95 (grades D and A+). -/
theorem getGrade_total_and_monotone_witness :
    (55 : ℚ) ≤ 95 ∧
    gradeRank (getGrade (55 : ℚ)).grade ≤ gradeRank (getGrade (95 : ℚ)).grade :=
  ⟨by norm_num, getGrade_total_and_monotone.2 55 95 (by norm_num)⟩

/-- C6: is_teacher is a pure lookup over the raw profiles table: it returns
true exactly when a profile row with the given id and role teacher exists,
it takes no requester and reads the unfiltered table (so its answer cannot
depend on who invokes it and it cannot re-enter the profile policy), and the
rebuilt policy "Teachers can view all profiles" is exactly this lookup applied
to the requester. -/
theorem is_teacher_spec (db : Database) (u r : UUID) :
    (is_teacher db u = true ↔
      ∃ p ∈ db.profiles, p.id = u ∧ p.role = UserRole.teacher) ∧
    teachersCanViewAllProfiles db r = is_teacher db r := by
  refine ⟨?_, rfl⟩
  simp [is_teacher, List.any_eq_true, Bool.and_eq_true, beq_iff_eq]

/-- C4: a result or payment row is readable exactly by its subject student and
by teachers; the visible lists surface exactly those rows, so any other
student receives an empty slice for rows that are not theirs. -/
theorem result_payment_read_policy (db : Database) (r : UUID) (x : ResultRow)
    (y : Payment) :
    (resultSelectAllowed db r x = true ↔
      (r = x.student_id ∨ is_teacher db r = true)) ∧
    (paymentSelectAllowed db r y = true ↔
      (r = y.student_id ∨ is_teacher db r = true)) ∧
    (x ∈ visibleResults db r ↔
      x ∈ db.results ∧ (r = x.student_id ∨ is_teacher db r = true)) ∧
    (y ∈ visiblePayments db r ↔
      y ∈ db.payments ∧ (r = y.student_id ∨ is_teacher db r = true)) := by
  have hres : resultSelectAllowed db r x = true ↔
      (r = x.student_id ∨ is_teacher db r = true) := by
    rw [show (r = x.student_id) = (x.student_id = r) from propext eq_comm]
    simp [resultSelectAllowed, studentsCanViewOwnResults,
      teachersCanViewAllResults, requesterIsTeacher_eq]
  have hpay : paymentSelectAllowed db r y = true ↔
      (r = y.student_id ∨ is_teacher db r = true) := by
    rw [show (r = y.student_id) = (y.student_id = r) from propext eq_comm]
    simp [paymentSelectAllowed, studentsCanViewOwnPayments,
      teachersCanViewAllPayments, teachersCanManagePayments,
      requesterIsTeacher_eq]
  refine ⟨hres, hpay, ?_, ?_⟩
  · rw [visibleResults, List.mem_filter, hres]
  · rw [visiblePayments, List.mem_filter, hpay]

/-- C5: an identity with no teacher profile row is denied every insert into
assignments, results and payments, whatever the payload: the three create
policies test only the requester. -/
theorem non_teacher_insert_rejected (db : Database) (r : UUID)
    (h : is_teacher db r = false) :
    (∀ row : Assignment,
      insertAssignment db r row = Except.error DbError.authorizationDenied) ∧
    (∀ row : ResultRow,
      insertResult db r row = Except.error DbError.authorizationDenied) ∧
    (∀ row : Payment,
      insertPayment db r row = Except.error DbError.authorizationDenied) := by
  have h' : requesterIsTeacher db r = false := h
  refine ⟨fun row => ?_, fun row => ?_, fun row => ?_⟩
  · simp [insertAssignment, teachersCanCreateAssignments, h']
  · simp [insertResult, teachersCanCreateResults, h']
  · simp [insertPayment, teachersCanManagePayments, h']

/-- Witness for C5: student 2 of the sample store cannot insert an
assignment. -/
theorem non_teacher_insert_rejected_witness :
    is_teacher sampleDb 2 = false ∧
    insertAssignment sampleDb 2 { id := 50, teacher_id := 2, title := "Fake" }
      = Except.error DbError.authorizationDenied :=
  ⟨by decide,
    (non_teacher_insert_rejected sampleDb 2 (by decide)).1
      { id := 50, teacher_id := 2, title := "Fake" }⟩

/-- C9: a delete aimed at an announcement row removes it exactly when the
requester is its authoring teacher; any other requester leaves the row in
place. -/
theorem announcement_delete_policy (db : Database) (r : UUID)
    (a : Announcement) (ha : a ∈ db.announcements) :
    (a ∉ (deleteAnnouncements db r fun x => x.id == a.id).announcements ↔
      r = a.teacher_id) := by
  constructor
  · intro hnot
    by_contra hne
    refine hnot (List.mem_filter.mpr ⟨ha, ?_⟩)
    simp [teachersCanDeleteTheirAnnouncements]
    exact fun hteq => absurd hteq.symm hne
  · intro heq hmem
    have hkeep := (List.mem_filter.mp hmem).2
    simp [teachersCanDeleteTheirAnnouncements, heq] at hkeep

/-- Witness for C9: the sample announcement, targeted by its author and
by another identity. -/
theorem announcement_delete_policy_witness :
    welcomeNote ∈ sampleDb.announcements ∧
    (welcomeNote ∉
        (deleteAnnouncements sampleDb 1 fun x => x.id == welcomeNote.id).announcements ↔
      (1 : UUID) = welcomeNote.teacher_id) :=
  ⟨by decide, announcement_delete_policy sampleDb 1 welcomeNote (by decide)⟩

/-- C2: on a pending payment row, the client payment request issued by a
non-teacher identity is filtered out by the policy and leaves every payment
row unchanged, while the same request issued by a teacher marks the row paid
and stamps the paid date. -/
theorem payment_status_update_policy (db : Database) (s t : UUID)
    (p : Payment) (d : String) (hp : p ∈ db.payments)
    (_hpend : p.status = "pending") (hs : is_teacher db s = false)
    (ht : is_teacher db t = true) :
    (handlePayment db s p.id d).payments = db.payments ∧
    { p with status := "paid", paid_date := some d } ∈
      (handlePayment db t p.id d).payments := by
  have hs' : teachersCanManagePayments db s = false := hs
  have ht' : teachersCanManagePayments db t = true := ht
  constructor
  · simp [handlePayment, updatePayments, hs']
  · refine List.mem_map.mpr ⟨p, hp, ?_⟩
    simp [ht']

/-- Witness for C2: the pending sample payment, attempted by student 2 and by
teacher 1. -/
theorem payment_status_update_policy_witness :
    samplePayment ∈ sampleDb.payments ∧
    samplePayment.status = "pending" ∧
    is_teacher sampleDb 2 = false ∧
    is_teacher sampleDb 1 = true ∧
    ((handlePayment sampleDb 2 samplePayment.id "2026-02-15").payments
        = sampleDb.payments ∧
      { samplePayment with status := "paid", paid_date := some "2026-02-15" } ∈
        (handlePayment sampleDb 1 samplePayment.id "2026-02-15").payments) :=
  ⟨by decide, by decide, by decide, by decide,
    payment_status_update_policy sampleDb 2 1 samplePayment "2026-02-15"
      (by decide) (by decide) (by decide) (by decide)⟩

/-- C3: once a student has a submission for an assignment stored by a
successful create, a second create by the same student for the same
assignment is rejected with the uniqueness constraint violated, and the first
row is still stored. -/
theorem submission_unique_per_pair (db dbp : Database) (s : UUID)
    (row row2 : Submission) (hself : row.student_id = s)
    (hins : insertSubmission db s row = Except.ok dbp)
    (hpair : row2.assignment_id = row.assignment_id)
    (hself2 : row2.student_id = s) :
    row ∈ dbp.assignment_submissions ∧
    insertSubmission dbp s row2 = Except.error DbError.uniqueViolation := by
  unfold insertSubmission at hins
  simp only [studentsCanCreateOwnSubmissions, hself, beq_self_eq_true,
    if_true] at hins
  split at hins
  · exact absurd hins (by simp)
  split at hins
  case isTrue hfk =>
    rw [Except.ok.injEq] at hins
    subst hins
    refine ⟨List.mem_cons_self _ _, ?_⟩
    unfold insertSubmission
    simp [studentsCanCreateOwnSubmissions, hself2, hpair, hself]
  · exact absurd hins (by simp)

/-- A first submission of student 2 for the sample assignment. -/
def firstSubmission : Submission :=
  { id := 60, assignment_id := 10, student_id := 2 }

/-- A second submission of student 2 for the same assignment, under a fresh
primary key. -/
def secondSubmission : Submission :=
  { id := 61, assignment_id := 10, student_id := 2,
    file_url := some "files/hw1-v2.pdf" }

/-- The sample store after the first submission is stored. -/
def sampleDbSubmitted : Database :=
  { sampleDb with assignment_submissions := [firstSubmission] }

/-- Witness for C3: the first submission of student 2 is accepted, the second
one violates uniqueness. -/
theorem submission_unique_per_pair_witness :
    firstSubmission.student_id = 2 ∧
    insertSubmission sampleDb 2 firstSubmission = Except.ok sampleDbSubmitted ∧
    secondSubmission.assignment_id = firstSubmission.assignment_id ∧
    secondSubmission.student_id = 2 ∧
    (firstSubmission ∈ sampleDbSubmitted.assignment_submissions ∧
      insertSubmission sampleDbSubmitted 2 secondSubmission =
        Except.error DbError.uniqueViolation) :=
  ⟨by decide, by rfl, by decide, by decide,
    submission_unique_per_pair sampleDb sampleDbSubmitted 2 firstSubmission
      secondSubmission (by decide) (by rfl) (by decide) (by decide)⟩

/-- The signup payload of a student carrying a roll number, as the client
signup form sends it. -/
def aliceSignup : AuthUser :=
  { id := 7, email := "alice@school.edu",
    raw_user_meta_data :=
      { full_name := some "Alice", role := some UserRole.student,
        roll_number := some "2024001" } }

/-- C7 counterexample: the provisioning trigger does not copy role-specific
metadata: a signup whose metadata carries roll_number 2024001 yields a profile
row whose roll_number column is empty. -/
theorem handle_new_user_drops_role_fields :
    aliceSignup.raw_user_meta_data.roll_number = some "2024001" ∧
    (handle_new_user aliceSignup).roll_number = none := by
  exact ⟨rfl, rfl⟩

/-- C7 (amended): the profile row synthesized by the provisioning trigger has
id and email copied from the identity, full_name from the metadata with
placeholder User, role from the metadata with default student, and every
role-specific column (roll_number, course, department) left empty regardless
of the metadata. -/
theorem handle_new_user_synthesized_row (u : AuthUser) :
    (handle_new_user u).id = u.id ∧
    (handle_new_user u).email = u.email ∧
    (handle_new_user u).full_name = u.raw_user_meta_data.full_name.getD "User" ∧
    (handle_new_user u).role = u.raw_user_meta_data.role.getD UserRole.student ∧
    (handle_new_user u).roll_number = none ∧
    (handle_new_user u).course = none ∧
    (handle_new_user u).department = none ∧
    (handle_new_user u).phone = none :=
  ⟨rfl, rfl, rfl, rfl, rfl, rfl, rfl, rfl⟩

/-- C1 counterexample: the profile update policy carries no column exclusion,
so student 2 updating their own row with a new role passes both the USING and
the re-applied check, and the stored role changes from student to teacher. -/
theorem profile_role_self_update_counterexample :
    studentTwo.role = UserRole.student ∧
    (updateProfiles sampleDb 2 (fun p => p.id == 2)
        (fun p => { p with role := UserRole.teacher })).map
      (fun db => db.profiles.map Profile.role) =
      Except.ok [UserRole.teacher, UserRole.teacher, UserRole.student] :=
  ⟨rfl, rfl⟩

/-- C1 (amended): a profile update is applied only to rows owned by the
requester: every row of another holder survives unchanged, and every row of
the updated store is either an original row or the update image of a row
whose id equals the requester id.  The policy does not exclude any column, so
such a self-service update can change the role field. -/
theorem profile_update_only_self (db dbp : Database) (uid : UUID)
    (cond : Profile → Bool) (upd : Profile → Profile)
    (hok : updateProfiles db uid cond upd = Except.ok dbp) :
    (∀ p ∈ db.profiles, p.id ≠ uid → p ∈ dbp.profiles) ∧
    (∀ q ∈ dbp.profiles, q ∈ db.profiles ∨
      ∃ p ∈ db.profiles, p.id = uid ∧ q = upd p) := by
  unfold updateProfiles at hok
  split at hok
  case isFalse => exact absurd hok (by simp)
  case isTrue =>
    rw [Except.ok.injEq] at hok
    subst hok
    constructor
    · intro p hp hne
      refine List.mem_map.mpr ⟨p, hp, ?_⟩
      have hbeq : (uid == p.id) = false := by
        simp [Ne.symm hne]
      simp [usersCanUpdateOwnProfile, hbeq]
    · intro q hq
      rcases List.mem_map.mp hq with ⟨p, hp, himg⟩
      by_cases hc : (cond p && usersCanUpdateOwnProfile uid p) = true
      · rw [if_pos hc] at himg
        have : uid = p.id := by
          simp [usersCanUpdateOwnProfile] at hc
          exact hc.2
        exact Or.inr ⟨p, hp, this.symm, himg.symm⟩
      · rw [if_neg hc] at himg
        exact Or.inl (himg ▸ hp)

/-- The sample store after student 2 sets a phone number on their own row. -/
def sampleDbPhone : Database :=
  { sampleDb with profiles :=
      [teacherOne, { studentTwo with phone := some "555-0102" }, studentThree] }

/-- Witness for C1 (amended): student 2 updates their own phone number; the
rows of the teacher and of student 3 are untouched. -/
theorem profile_update_only_self_witness :
    updateProfiles sampleDb 2 (fun p => p.id == 2)
        (fun p => { p with phone := some "555-0102" }) =
      Except.ok sampleDbPhone ∧
    (∀ p ∈ sampleDb.profiles, p.id ≠ 2 → p ∈ sampleDbPhone.profiles) :=
  ⟨by rfl,
    (profile_update_only_self sampleDb sampleDbPhone 2 (fun p => p.id == 2)
      (fun p => { p with phone := some "555-0102" }) (by rfl)).1⟩

/-- A result row with zero total marks. -/
def zeroTotalResult : ResultRow :=
  { id := 40, student_id := 2, teacher_id := 1, exam_type := "CT",
    subject := "Math", marks_obtained := 50, total_marks := 0,
    exam_date := "2026-01-10" }

/-- C8 counterexample: the create operation inspects only the requester and
the key and reference constraints, so the teacher stores a result row whose
total_marks is 0, violating the claimed invariant total_marks > 0. -/
theorem result_create_accepts_zero_total :
    zeroTotalResult.total_marks = 0 ∧
    insertResult sampleDb 1 zeroTotalResult =
      Except.ok { sampleDb with results := [zeroTotalResult] } :=
  ⟨rfl, rfl⟩

/-- C8 (amended): acceptance of a result row by the create operation is
independent of its marks_obtained and total_marks values — no constraint
bounds them — and the percentage arithmetic of getPercentage is well-defined
only on rows whose total_marks is nonzero, where it satisfies the defining
equation of the ratio. -/
theorem result_create_marks_unconstrained (db : Database) (r : UUID)
    (row : ResultRow) (m t : ℚ) :
    (insertResult db r { row with marks_obtained := m, total_marks := t }).isOk
      = (insertResult db r row).isOk ∧
    (∀ o tm : ℚ, tm ≠ 0 → getPercentage o tm * tm = o * 100) := by
  constructor
  · rcases row with ⟨i, sid, tid, et, su, mo, tm0, ed, re⟩
    unfold insertResult
    dsimp only
    split_ifs <;> rfl
  · intro o tm htm
    unfold getPercentage
    field_simp

/-- Witness for C8 (amended) at obtained 50 of total 100. -/
theorem result_create_marks_unconstrained_witness :
    (100 : ℚ) ≠ 0 ∧ getPercentage 50 100 * 100 = 50 * 100 :=
  ⟨by norm_num,
    (result_create_marks_unconstrained sampleDb 1 zeroTotalResult 50 0).2
      50 100 (by norm_num)⟩

end EduTrackers
